import Mathlib

/-!
Verification of a small web service that wires a database-backed
constants cache and a health endpoint (source: `src/app/__init__.py`).
The health endpoint is embedded directly from the source; the constants
cache, its load protocol and the lookup handler live in modules that are
not part of the provided sources, so they are modelled from the
specification and the claims are settled against those models.
-/

/-- Mirrors `HealthCheckModel` (src/app/__init__.py lines 21-23): a
response body with a status string defaulting to OK and an optional
request duration.  The source annotates the duration as a float; the
value actually stored is the integer difference of two microsecond
components, so it is embedded as an integer. -/
structure HealthCheckModel where
  status : String := "OK"
  request_duration : Option Int := none

/-- The `microsecond` component of a wall-clock reading, where the
reading is given as total microseconds since some epoch.  Mirrors
Python's `datetime.microsecond`, which is the sub-second part in the
range 0..999999. -/
def datetime_microsecond (t : Nat) : Nat := t % 1000000

/-- Mirrors `health_check` (src/app/__init__.py lines 29-36).  The two
clock readings taken by the handler are passed in as total microseconds
(tStart for `start`, tEnd for `end`).  The handler builds the default
response and then sets `request_duration` to
`end.microsecond - start.microsecond`, exactly as line 34 does. -/
def health_check (tStart tEnd : Nat) : HealthCheckModel :=
  let response : HealthCheckModel := { status := "OK", request_duration := none }
  { response with
      request_duration :=
        some ((datetime_microsecond tEnd : Int) - (datetime_microsecond tStart : Int)) }

/-- The true elapsed wall-clock duration between the two readings, in
microseconds, for comparison with what the handler reports. -/
def elapsed_microseconds (tStart tEnd : Nat) : Int := (tEnd : Int) - (tStart : Int)

/-- Modelled from the spec: the tagged lookup outcome of the constants
cache (spec 4.1), whose implementation (`app.internal.constant`) is not
among the provided sources. -/
inductive Lookup (V : Type) where
  | Found : V → Lookup V
  | NotFound : Lookup V
  | NotReady : Lookup V

/-- Modelled from the spec: the Repository failure signalled on
connectivity or query failure (spec 6); the Repository implementation is
not among the provided sources. -/
structure RepositoryError where
  code : Nat

/-- Modelled from the spec: the load failure carrying the underlying
Repository cause (spec 4.1); the cache implementation is not among the
provided sources. -/
inductive LoadError where
  | cause : RepositoryError → LoadError

/-- Modelled from the spec: the constants cache state (spec 3) — a
mapping from keys to values plus a readiness flag; the cache
implementation (`ConstantUseCase`) is not among the provided sources. -/
structure ConstantsCache (K V : Type) where
  mapping : List (K × V)
  loaded : Bool

/-- Modelled from the spec: the cache as created at process start,
before any load has completed — empty mapping, not loaded. -/
def ConstantsCache.initial (K V : Type) : ConstantsCache K V :=
  { mapping := [], loaded := false }

/-- Association-list lookup used by the cache's read path: first pair
whose key equals the query key wins (keys are unique per spec 3). -/
def lookupList {K V : Type} [BEq K] (k : K) : List (K × V) → Option V
  | [] => none
  | p :: rest => if p.1 == k then some p.2 else lookupList k rest

/-- Modelled from the spec: `load()` (spec 4.1).  The Repository fetch
outcome is passed in.  On success the whole mapping is replaced by the
fetched rows and `loaded` is set; on Repository failure the cache is
left intact and a `LoadError` carrying the cause is signalled. -/
def ConstantsCache.load {K V : Type} (c : ConstantsCache K V)
    (fetched : Except RepositoryError (List (K × V))) :
    ConstantsCache K V × Except LoadError Unit :=
  match fetched with
  | .ok rows => ({ mapping := rows, loaded := true }, .ok ())
  | .error err => (c, .error (.cause err))

/-- Modelled from the spec: `get(key)` (spec 4.1) — `NotReady` while no
load has ever completed, otherwise `Found` or `NotFound` by an in-memory
lookup. -/
def ConstantsCache.get {K V : Type} [BEq K] (c : ConstantsCache K V) (k : K) : Lookup V :=
  if c.loaded then
    match lookupList k c.mapping with
    | some v => .Found v
    | none => .NotFound
  else
    .NotReady

/-- Modelled from the spec: `is_ready()` (spec 4.1) — whether at least
one successful load has completed. -/
def ConstantsCache.is_ready {K V : Type} (c : ConstantsCache K V) : Bool := c.loaded

/-- Cache states reachable from the initial cold cache by any sequence
of load attempts (each attempt seeing an arbitrary Repository
outcome). -/
inductive CacheReachable {K V : Type} : ConstantsCache K V → Prop where
  | init : CacheReachable (ConstantsCache.initial K V)
  | step (c : ConstantsCache K V) (fetched : Except RepositoryError (List (K × V))) :
      CacheReachable c → CacheReachable (c.load fetched).1

/-- Modelled from the spec: the HTTP-facing response of the lookup
handler (spec 4.2, 6) — a status code and an optional payload. -/
structure HandlerResponse (V : Type) where
  status_code : Nat
  value : Option V

/-- Modelled from the spec: the lookup handler's translation of cache
outcomes to responses (spec 4.2, 6): Found gives 200 with the value,
NotFound gives 404, NotReady gives 503.  The handler implementation
(`ConstantHandler`) is not among the provided sources. -/
def constant_lookup_response {V : Type} (r : Lookup V) : HandlerResponse V :=
  match r with
  | .Found v => { status_code := 200, value := some v }
  | .NotFound => { status_code := 404, value := none }
  | .NotReady => { status_code := 503, value := none }

/-- Modelled from the spec: the handler for `GET /constants/\x7bkey\x7d`
calls `Cache.get` and translates the outcome. -/
def ConstantHandler.handle {K V : Type} [BEq K] (c : ConstantsCache K V) (k : K) :
    HandlerResponse V :=
  constant_lookup_response (c.get k)

/-- Modelled from the spec: a log record for a failed background load
(spec 4.3: failure of the initial load is logged). -/
inductive LogEntry where
  | loadFailed : RepositoryError → LogEntry

/-- Modelled from the spec: the application state relevant to the
startup load protocol — the cache, the number of scheduled but not yet
run background load tasks, and the log. -/
structure AppState (K V : Type) where
  cache : ConstantsCache K V
  pendingLoads : Nat
  log : List LogEntry

/-- Modelled from the spec: `App.__init__` (src/app/__init__.py line 95
schedules `self._constant_uc.load()` with `asyncio.create_task` and does
not await it; the task body `ConstantUseCase.load` is not among the
provided sources).  Construction completes with the cache still cold and
exactly one load task pending — the constructor never runs the load. -/
def App_init (K V : Type) : AppState K V :=
  { cache := ConstantsCache.initial K V, pendingLoads := 1, log := [] }

/-- Modelled from the spec: the event loop later runs a pending load
task to completion with some Repository outcome.  A failure leaves the
cache intact and is logged (spec 4.3); a success installs the fetched
snapshot.  Either way the function is total: the process stays up. -/
def run_pending_load {K V : Type} (s : AppState K V)
    (fetched : Except RepositoryError (List (K × V))) : AppState K V :=
  match s.pendingLoads with
  | 0 => s
  | n + 1 =>
    match fetched with
    | .ok rows =>
        { cache := { mapping := rows, loaded := true }, pendingLoads := n, log := s.log }
    | .error err =>
        { cache := s.cache, pendingLoads := n, log := s.log ++ [LogEntry.loadFailed err] }

/-- Modelled from the spec: the concurrent system state for the load
protocol (spec 5) — the cache, the single in-flight-load guard, and the
list of Repository fetches currently in flight. -/
structure SysState (K V : Type) where
  cache : ConstantsCache K V
  inFlightGuard : Bool
  inFlightFetches : List (List (K × V))

/-- Modelled from the spec: the initial concurrent system state — cold
cache, no load in flight. -/
def SysState.init (K V : Type) : SysState K V :=
  { cache := ConstantsCache.initial K V, inFlightGuard := false, inFlightFetches := [] }

/-- Modelled from the spec: one interleaving step of the load protocol
(spec 5).  `R` is the set of complete row snapshots the Repository can
return.  A load may start only when the guard is clear (the in-flight
guard serialises loads); a finishing load installs its complete snapshot
in one atomic step and clears the guard; a failing load clears the guard
leaving the cache intact.  Reads do not change the state, so a reader at
any reachable state sees exactly the `cache` field of that state. -/
inductive SysStep {K V : Type} (R : List (K × V) → Prop) :
    SysState K V → SysState K V → Prop where
  | startLoad (s : SysState K V) (rows : List (K × V)) :
      R rows → s.inFlightGuard = false →
      SysStep R s
        { cache := s.cache, inFlightGuard := true,
          inFlightFetches := rows :: s.inFlightFetches }
  | finishLoad (s : SysState K V) (rows : List (K × V)) (rest : List (List (K × V))) :
      s.inFlightFetches = rows :: rest →
      SysStep R s
        { cache := { mapping := rows, loaded := true }, inFlightGuard := false,
          inFlightFetches := rest }
  | failLoad (s : SysState K V) (rows : List (K × V)) (rest : List (List (K × V))) :
      s.inFlightFetches = rows :: rest →
      SysStep R s
        { cache := s.cache, inFlightGuard := false, inFlightFetches := rest }

/-- System states reachable from the initial state by interleaving
steps. -/
inductive SysReachable {K V : Type} (R : List (K × V) → Prop) : SysState K V → Prop where
  | init : SysReachable R (SysState.init K V)
  | step {s t : SysState K V} : SysReachable R s → SysStep R s t → SysReachable R t

/-- The inductive invariant of the concurrent load protocol: a clear
guard means no fetch is in flight, at most one fetch is ever in flight,
the visible mapping is always a complete snapshot (initial empty or a
full Repository result), and every in-flight fetch is a complete
Repository result. -/
def SysInv {K V : Type} (R : List (K × V) → Prop) (s : SysState K V) : Prop :=
  (s.inFlightGuard = false → s.inFlightFetches = []) ∧
  s.inFlightFetches.length ≤ 1 ∧
  (s.cache.mapping = [] ∨ R s.cache.mapping) ∧
  (∀ rows ∈ s.inFlightFetches, R rows)

theorem sysReachable_inv {K V : Type} (R : List (K × V) → Prop) (s : SysState K V)
    (h : SysReachable R s) : SysInv R s := by
  induction h with
  | init =>
      refine ⟨fun _ => rfl, by simp [SysState.init], Or.inl rfl, ?_⟩
      intro rows hrows
      simp [SysState.init] at hrows
  | step hr hstep ih =>
      obtain ⟨ihGuard, ihLen, ihMap, ihAll⟩ := ih
      rename_i s0 t0
      cases hstep with
      | startLoad rows hR hguard =>
          have hempty : s0.inFlightFetches = [] := ihGuard hguard
          refine ⟨fun hfalse => by simp at hfalse, ?_, ihMap, ?_⟩
          · simp [hempty]
          · intro r hr
            simp [hempty] at hr
            exact hr ▸ hR
      | finishLoad rows rest heq =>
          have hrest : rest = [] := by
            have := ihLen
            rw [heq] at this
            simp at this
            exact this
          have hRrows : R rows := ihAll rows (by rw [heq]; exact List.mem_cons_self rows rest)
          refine ⟨fun _ => hrest, ?_, Or.inr hRrows, ?_⟩
          · simp [hrest]
          · intro r hr
            simp [hrest] at hr
      | failLoad rows rest heq =>
          have hrest : rest = [] := by
            have := ihLen
            rw [heq] at this
            simp at this
            exact this
          refine ⟨fun _ => hrest, ?_, ihMap, ?_⟩
          · simp [hrest]
          · intro r hr
            simp [hrest] at hr

/-- Claim C1 (the code refutes it): the spec requires `request_duration`
to equal the elapsed wall-clock duration of the check, a non-negative
quantity, but the handler computes `end.microsecond - start.microsecond`
(src/app/__init__.py line 34).  At the concrete clock readings
999999 µs and 1000001 µs (the check crosses a second boundary), the
elapsed duration is 2 µs, yet the handler reports -999998 — negative and
different from the elapsed duration. -/
theorem C1_health_duration_not_elapsed :
    (health_check 999999 1000001).request_duration = some (-999998) ∧
    elapsed_microseconds 999999 1000001 = 2 ∧
    (health_check 999999 1000001).request_duration ≠
      some (elapsed_microseconds 999999 1000001) ∧
    ∃ d : Int, (health_check 999999 1000001).request_duration = some d ∧ d < 0 :=
  ⟨by decide, by decide, by decide, ⟨-999998, by decide, by decide⟩⟩

/-- Claim C2: in every cache state reachable while no load has ever
succeeded (`loaded = false`), the internal mapping is empty and `get`
returns `NotReady` for every key — never `NotFound` — so a cold cache is
always distinguishable from an absent key. -/
theorem C2_cold_cache_not_ready {K V : Type} [BEq K] (c : ConstantsCache K V)
    (hr : CacheReachable c) (hl : c.loaded = false) (k : K) :
    c.mapping = [] ∧ c.get k = Lookup.NotReady ∧ c.get k ≠ Lookup.NotFound := by
  have hm : c.mapping = [] := by
    induction hr with
    | init => rfl
    | step c0 fetched h ih =>
        cases fetched with
        | ok rows => simp [ConstantsCache.load] at hl
        | error err => exact ih hl
  have hget : c.get k = Lookup.NotReady := by
    simp [ConstantsCache.get, hl]
  exact ⟨hm, hget, by simp [hget]⟩

/-- Witness for C2 at the concrete initial cache over Nat keys and Int
values, key 7. -/
theorem C2_cold_cache_not_ready_witness :
    (ConstantsCache.initial Nat Int).mapping = [] ∧
    (ConstantsCache.initial Nat Int).get 7 = Lookup.NotReady ∧
    (ConstantsCache.initial Nat Int).get 7 ≠ Lookup.NotFound :=
  C2_cold_cache_not_ready (ConstantsCache.initial Nat Int) CacheReachable.init rfl 7

/-- Claim C3: after a successful `load()` whose Repository fetch
returned exactly the rows (a,1) and (b,2) with a ≠ b, `get a` is
`Found 1`, `get b` is `Found 2`, and `get k` is `NotFound` for every key
k distinct from a and b: a successful load fully replaces the mapping
with exactly the fetched rows, whatever the cache held before. -/
theorem C3_load_replaces_mapping {K : Type} [BEq K] [LawfulBEq K]
    (c0 : ConstantsCache K Int) (a b k : K)
    (hab : a ≠ b) (hka : k ≠ a) (hkb : k ≠ b) :
    ((c0.load (.ok [(a, 1), (b, 2)])).1).get a = Lookup.Found 1 ∧
    ((c0.load (.ok [(a, 1), (b, 2)])).1).get b = Lookup.Found 2 ∧
    ((c0.load (.ok [(a, 1), (b, 2)])).1).get k = Lookup.NotFound := by
  have hAB : (a == b) = false := beq_eq_false_iff_ne.mpr hab
  have hAK : (a == k) = false := beq_eq_false_iff_ne.mpr (fun h => hka h.symm)
  have hBK : (b == k) = false := beq_eq_false_iff_ne.mpr (fun h => hkb h.symm)
  refine ⟨?_, ?_, ?_⟩ <;>
    simp [ConstantsCache.load, ConstantsCache.get, lookupList, hAB, hAK, hBK]

/-- Witness for C3 with Nat keys a = 1, b = 2, k = 3 over the initial
cache. -/
theorem C3_load_replaces_mapping_witness :
    (((ConstantsCache.initial Nat Int).load (.ok [(1, 1), (2, 2)])).1).get 1 =
      Lookup.Found 1 ∧
    (((ConstantsCache.initial Nat Int).load (.ok [(1, 1), (2, 2)])).1).get 2 =
      Lookup.Found 2 ∧
    (((ConstantsCache.initial Nat Int).load (.ok [(1, 1), (2, 2)])).1).get 3 =
      Lookup.NotFound :=
  C3_load_replaces_mapping (ConstantsCache.initial Nat Int) 1 2 3
    (by decide) (by decide) (by decide)

/-- Claim C4: a `load()` that fails with a Repository error leaves the
cache state (mapping and loaded flag) exactly as it was, signals a
`LoadError` carrying the underlying cause, and every subsequent `get`
returns the same result as before the failed load; the operation is
total, so the process does not crash. -/
theorem C4_failed_load_preserves_state {K V : Type} [BEq K]
    (c : ConstantsCache K V) (err : RepositoryError) :
    c.load (.error err) = (c, .error (LoadError.cause err)) ∧
    ∀ k : K, ((c.load (.error err)).1).get k = c.get k :=
  ⟨rfl, fun _ => rfl⟩

/-- Claim C5: a successful `load()` of an empty Repository leaves the
cache with zero entries, `is_ready` true, and `get` returning `NotFound`
for every key — an empty successful load marks the cache ready rather
than NotReady. -/
theorem C5_empty_load_ready {K V : Type} [BEq K] (c0 : ConstantsCache K V) (k : K) :
    ((c0.load (.ok [])).1).mapping = [] ∧
    ((c0.load (.ok [])).1).is_ready = true ∧
    ((c0.load (.ok [])).1).get k = Lookup.NotFound := by
  refine ⟨rfl, rfl, ?_⟩
  simp [ConstantsCache.load, ConstantsCache.get, lookupList]

/-- Claim C6: the lookup handler's response is determined exactly by the
cache's `get` outcome — Found v gives a 200 payload with v, NotFound
gives 404, NotReady gives 503 — and the NotReady response differs from
the NotFound response. -/
theorem C6_handler_maps_outcomes {K V : Type} [BEq K]
    (c : ConstantsCache K V) (k : K) (v : V) :
    ConstantHandler.handle c k = constant_lookup_response (c.get k) ∧
    constant_lookup_response (Lookup.Found v) = { status_code := 200, value := some v } ∧
    constant_lookup_response (Lookup.NotFound : Lookup V) =
      { status_code := 404, value := none } ∧
    constant_lookup_response (Lookup.NotReady : Lookup V) =
      { status_code := 503, value := none } ∧
    constant_lookup_response (Lookup.NotReady : Lookup V) ≠
      constant_lookup_response (Lookup.NotFound : Lookup V) := by
  refine ⟨rfl, rfl, rfl, rfl, ?_⟩
  intro h
  have hc := congrArg HandlerResponse.status_code h
  simp [constant_lookup_response] at hc

/-- Claim C7: process initialisation schedules the cache load as a
background task without running it — construction completes with one
pending load and a cold cache, independent of any Repository outcome; a
later failure of that load leaves the cache unchanged, appends a log
record, does not prevent further execution (the step is total), and
`load()` can still be called again successfully afterwards. -/
theorem C7_background_load_nonfatal (err : RepositoryError)
    (rows : List (Nat × Int)) (k : Nat) :
    (App_init Nat Int).pendingLoads = 1 ∧
    (App_init Nat Int).cache.get k = Lookup.NotReady ∧
    (run_pending_load (App_init Nat Int) (.error err)).cache =
      ConstantsCache.initial Nat Int ∧
    (run_pending_load (App_init Nat Int) (.error err)).log =
      [LogEntry.loadFailed err] ∧
    ((run_pending_load (App_init Nat Int) (.error err)).cache.load (.ok rows)).2 =
      Except.ok () :=
  ⟨rfl, rfl, rfl, rfl, rfl⟩

/-- Claim C8: the health check always succeeds — it is a total function
whose result has status exactly OK and a set (non-none) request
duration, for every pair of clock readings, independent of cache
readiness or Repository connectivity (neither appears among its
inputs). -/
theorem C8_health_check_always_ok (tStart tEnd : Nat) :
    (health_check tStart tEnd).status = "OK" ∧
    (health_check tStart tEnd).request_duration ≠ none :=
  ⟨rfl, by simp [health_check]⟩

/-- Claim C9: in every reachable state of the concurrent load protocol,
at most one Repository fetch is in flight, and the mapping a concurrent
reader observes (the cache field read by `get`) is always a complete
snapshot — the initial empty mapping or the full row set of one
Repository result, never a partially built mapping and never a merge of
two results. -/
theorem C9_atomic_swap_single_fetch {K V : Type} (R : List (K × V) → Prop)
    (s : SysState K V) (hr : SysReachable R s) :
    s.inFlightFetches.length ≤ 1 ∧
    (s.cache.mapping = [] ∨ R s.cache.mapping) := by
  have h := sysReachable_inv R s hr
  exact ⟨h.2.1, h.2.2.1⟩

/-- Witness for C9 at the initial state, with the possible Repository
results fixed to the single snapshot [(1, 1)]. -/
theorem C9_atomic_swap_single_fetch_witness :
    (SysState.init Nat Int).inFlightFetches.length ≤ 1 ∧
    ((SysState.init Nat Int).cache.mapping = [] ∨
      (SysState.init Nat Int).cache.mapping = [(1, 1)]) :=
  C9_atomic_swap_single_fetch (fun rows => rows = [(1, 1)])
    (SysState.init Nat Int) SysReachable.init

/-- Claim C10 (implicit, from src/app/__init__.py lines 31-34): the
reported request_duration equals the difference of the microsecond
components of the end and start readings, an integer strictly between
-1000000 and 1000000; and there are readings crossing a second boundary
where it is negative and differs from the true elapsed time. -/
theorem C10_duration_is_microsecond_difference :
    (∀ tStart tEnd : Nat,
      (health_check tStart tEnd).request_duration =
        some ((datetime_microsecond tEnd : Int) - (datetime_microsecond tStart : Int)) ∧
      -1000000 < (datetime_microsecond tEnd : Int) - (datetime_microsecond tStart : Int) ∧
      (datetime_microsecond tEnd : Int) - (datetime_microsecond tStart : Int) < 1000000) ∧
    (∃ tStart tEnd : Nat, tStart < tEnd ∧
      ∃ d : Int, (health_check tStart tEnd).request_duration = some d ∧
        d < 0 ∧ d ≠ elapsed_microseconds tStart tEnd) := by
  constructor
  · intro s e
    refine ⟨rfl, ?_, ?_⟩ <;>
      · unfold datetime_microsecond
        omega
  · exact ⟨999999, 1000001, by decide, -999998, by decide, by decide, by decide⟩
